import Mathlib

/-!
# Arduino-BLE-MIDI: `AbstractMidiInterface.h`

A shallow embedding of the status-byte codec (`getTypeFromStatusByte`,
`getChannelFromStatusByte`, `isChannelMessage`) and of the class
`AbstractMidiInterface` (listener slots, `OnReceive*` registration, `send*`
convenience operations over the pure virtual `send`).

Conventions of the embedding:
* `byte` (`uint8_t`) values are natural numbers below 256; a conversion to
  `byte` that the source performs is written `toByte` (reduction modulo 256);
* `int` values are integers; the conversion `unsigned(x)` is reduction modulo
  `2 ^ intBits`, where `intBits` is the width of `int` on the target (16 on
  AVR, 32 on ESP32 / nRF52) and is a parameter of the one operation using it;
* the pure virtual `send` has no body in the class: a call to it is recorded,
  with its four arguments in parameter order, at the end of `sendCalls`;
* the header holds no code that invokes a listener slot: the delivery of a
  decoded `NoteOn` message is modelled from the dispatch contract of the
  specification (`deliverNoteOn`).
-/

namespace Midi

/-! ## Constants and type definitions -/

def MIDI_CHANNEL_OMNI : Nat := 0
def MIDI_CHANNEL_OFF : Nat := 17

def MIDI_PITCHBEND_MIN : Int := -8192
def MIDI_PITCHBEND_MAX : Int := 8191

/-! ### Macros

`MIDI_LSB` and `MIDI_MSB` are object-like replacement texts with no enclosing
parentheses: `(v) & 0x7F` and `((v)>> 7)  & 0x7F`. Where a macro is used, its
text is spliced into the surrounding expression, which is then read with the
operator precedences of C. The operators are those of the macros and of
expressions that recombine their results. -/

/-- The binary operators `<<`, `>>`, `&` and `|` of C. -/
inductive COp where
  | shl
  | shr
  | band
  | bor
  deriving DecidableEq, Repr

/-- Precedence level of a binary operator in C, a higher level binding
tighter: the shifts bind tighter than `&`, which binds tighter than `|`. -/
def COp.level : COp → Nat
  | .shl => 3
  | .shr => 3
  | .band => 2
  | .bor => 1

/-- The value of `a op b`. -/
def COp.apply : COp → Nat → Nat → Nat
  | .shl, a, b => a <<< b
  | .shr, a, b => a >>> b
  | .band, a, b => a &&& b
  | .bor, a, b => a ||| b

/-- The text of an expression, read at its top level: a first operand, then
operators each with its right operand. An operand is a literal, a variable or
a parenthesised subexpression, and is given by its value. -/
structure CExprText where
  first : Nat
  rest : List (COp × Nat)
  deriving DecidableEq, Repr

/-- Evaluate the operators of one precedence level, left to right, leaving the
operators of the other levels in place. -/
def reduceLevel (lvl : Nat) (cur : Nat) : List (COp × Nat) → CExprText
  | [] => ⟨cur, []⟩
  | (op, x) :: rest =>
    if op.level = lvl then
      reduceLevel lvl (op.apply cur x) rest
    else
      let r := reduceLevel lvl x rest
      ⟨cur, (op, r.first) :: r.rest⟩

namespace CExprText

/-- The value of an expression text: shifts first, then `&`, then `|`, each
level associating to the left. -/
def eval (t : CExprText) : Nat :=
  let t3 := reduceLevel 3 t.first t.rest
  let t2 := reduceLevel 2 t3.first t3.rest
  let t1 := reduceLevel 1 t2.first t2.rest
  t1.first

/-- A literal or a variable. -/
def lit (n : Nat) : CExprText := ⟨n, []⟩

/-- The text `( t )`: one operand, the value of `t`. -/
def paren (t : CExprText) : CExprText := ⟨t.eval, []⟩

/-- The text `a op b`, the two texts written one after the other around the
operator with no parentheses added. -/
def binop (a : CExprText) (op : COp) (b : CExprText) : CExprText :=
  ⟨a.first, a.rest ++ (op, b.first) :: b.rest⟩

end CExprText

/-- The macro `#define MIDI_LSB( v ) (v) & 0x7F`: its replacement text. -/
def MIDI_LSB (v : CExprText) : CExprText :=
  (CExprText.paren v).binop .band (CExprText.lit 0x7F)

/-- The macro `#define MIDI_MSB( v ) ((v)>> 7)  & 0x7F`: its replacement text. -/
def MIDI_MSB (v : CExprText) : CExprText :=
  (CExprText.paren ((CExprText.paren v).binop .shr (CExprText.lit 7))).binop .band
    (CExprText.lit 0x7F)

/-- The enumerators of `RPN::RegisteredParameterNumbers`. -/
def RPN.PitchBendSensitivity : Nat := 0x0000
def RPN.ChannelFineTuning : Nat := 0x0001
def RPN.ChannelCoarseTuning : Nat := 0x0002
def RPN.SelectTuningProgram : Nat := 0x0003
def RPN.SelectTuningBank : Nat := 0x0004
def RPN.ModulationDepthRange : Nat := 0x0005
def RPN.NullFunction : Nat := (0x7f <<< 7) + 0x7f

/-- Conversion of an unsigned value to `byte` (`uint8_t`). -/
def toByte (n : Nat) : Nat := n % 256

/-- Conversion `unsigned(x)` of an `int` of `intBits` bits. -/
def toUnsigned (intBits : Nat) (x : Int) : Nat := (x % (2 : Int) ^ intBits).toNat

/-- The enumeration `Type`: a value of the enumeration is its underlying
integer, so that the casts `Type(status)` of the source are total. -/
structure MidiType where
  val : Nat
  deriving DecidableEq, Repr

namespace MidiType

def InvalidType : MidiType := ⟨0x00⟩
def NoteOff : MidiType := ⟨0x80⟩
def NoteOn : MidiType := ⟨0x90⟩
def AfterTouchPoly : MidiType := ⟨0xA0⟩
def ControlChange : MidiType := ⟨0xB0⟩
def ProgramChange : MidiType := ⟨0xC0⟩
def AfterTouchChannel : MidiType := ⟨0xD0⟩
def PitchBend : MidiType := ⟨0xE0⟩
def SysEx : MidiType := ⟨0xF0⟩
def SysExStart : MidiType := SysEx
def SysExEnd : MidiType := ⟨0xF7⟩
def TimeCodeQuarterFrame : MidiType := ⟨0xF1⟩
def SongPosition : MidiType := ⟨0xF2⟩
def SongSelect : MidiType := ⟨0xF3⟩
def TuneRequest : MidiType := ⟨0xF6⟩
def Clock : MidiType := ⟨0xF8⟩
def Tick : MidiType := ⟨0xF9⟩
def Start : MidiType := ⟨0xFA⟩
def Continue : MidiType := ⟨0xFB⟩
def Stop : MidiType := ⟨0xFC⟩
def ActiveSensing : MidiType := ⟨0xFE⟩
def Reset : MidiType := ⟨0xFF⟩

/-- The enumerators of `Type`, in declaration order. -/
def members : List MidiType :=
  [InvalidType, NoteOff, NoteOn, AfterTouchPoly, ControlChange, ProgramChange,
   AfterTouchChannel, PitchBend, SysEx, SysExStart, SysExEnd, TimeCodeQuarterFrame,
   SongPosition, SongSelect, TuneRequest, Clock, Tick, Start, Continue, Stop,
   ActiveSensing, Reset]

end MidiType

open MidiType

/-! ## Status-byte codec -/

/-- Extract an enumerated MIDI type from a status byte. -/
def getTypeFromStatusByte (status : Nat) : MidiType :=
  if status < 0x80 || status == 0xf4 || status == 0xf5 || status == 0xf9 || status == 0xfD then
    -- Data bytes and undefined.
    InvalidType
  else if status < 0xf0 then
    -- Channel message, remove channel nibble.
    ⟨status &&& 0xf0⟩
  else
    ⟨status⟩

/-- Returns channel in the range 1-16. -/
def getChannelFromStatusByte (status : Nat) : Nat :=
  toByte ((status &&& 0x0f) + 1)

/-- Check if channel is in the range 1-16. -/
def isChannelMessage (type : MidiType) : Bool :=
  type == NoteOff ||
  type == NoteOn ||
  type == ControlChange ||
  type == AfterTouchPoly ||
  type == AfterTouchChannel ||
  type == PitchBend ||
  type == ProgramChange

/-! ## The class `AbstractMidiInterface` -/

/-- A function pointer: `none` is `NULL`, `some a` is the function at address `a`. -/
abbrev FnPtr := Option Nat

/-- One call of the pure virtual
`send(Type type, DataByte data1, DataByte data2, Channel channel)`,
its arguments in parameter order. -/
structure SendCall where
  type : MidiType
  data1 : Nat
  data2 : Nat
  channel : Nat
  deriving DecidableEq, Repr

/-- The fields of the class, in declaration order, followed by the record of
the calls made to the pure virtual `send`, oldest first. -/
structure AbstractMidiInterface where
  _runningStatus : Int
  _thruActivated : Bool
  _noteOnCallback : FnPtr
  _noteOffCallback : FnPtr
  _afterTouchPolyCallback : FnPtr
  _controlChangeCallback : FnPtr
  _programChangeCallback : FnPtr
  _afterTouchChannelCallback : FnPtr
  _pitchBendCallback : FnPtr
  _songPositionCallback : FnPtr
  _songSelectCallback : FnPtr
  _tuneRequestCallback : FnPtr
  _timeCodeQuarterFrameCallback : FnPtr
  _sysExCallback : FnPtr
  _clockCallback : FnPtr
  _startCallback : FnPtr
  _continueCallback : FnPtr
  _stopCallback : FnPtr
  _activeSensingCallback : FnPtr
  _resetCallback : FnPtr
  sendCalls : List SendCall
  deriving DecidableEq, Repr

namespace AbstractMidiInterface

/-- The constructor: its body is empty, so `_runningStatus` and
`_thruActivated` hold whatever values the storage had (the two arguments);
every listener slot takes its default member initializer `NULL`. -/
def construct (runningStatus : Int) (thruActivated : Bool) : AbstractMidiInterface :=
  { _runningStatus := runningStatus
    _thruActivated := thruActivated
    _noteOnCallback := none
    _noteOffCallback := none
    _afterTouchPolyCallback := none
    _controlChangeCallback := none
    _programChangeCallback := none
    _afterTouchChannelCallback := none
    _pitchBendCallback := none
    _songPositionCallback := none
    _songSelectCallback := none
    _tuneRequestCallback := none
    _timeCodeQuarterFrameCallback := none
    _sysExCallback := none
    _clockCallback := none
    _startCallback := none
    _continueCallback := none
    _stopCallback := none
    _activeSensingCallback := none
    _resetCallback := none
    sendCalls := [] }

/-- The pure virtual `send`: the call is recorded. -/
def send (self : AbstractMidiInterface) (type : MidiType) (data1 data2 channel : Nat) :
    AbstractMidiInterface :=
  { self with sendCalls := self.sendCalls ++ [⟨type, data1, data2, channel⟩] }

/-! ### Sending -/

def sendNoteOn (self : AbstractMidiInterface) (note velocity channel : Nat) :
    AbstractMidiInterface :=
  self.send NoteOn channel note velocity

def sendNoteOff (self : AbstractMidiInterface) (note velocity channel : Nat) :
    AbstractMidiInterface :=
  self.send NoteOff channel note velocity

def sendProgramChange (self : AbstractMidiInterface) (number channel : Nat) :
    AbstractMidiInterface :=
  self.send ProgramChange number 0 channel

def sendControlChange (self : AbstractMidiInterface) (number value channel : Nat) :
    AbstractMidiInterface :=
  self.send ControlChange number value channel

/-- The overload `sendPitchBend(int value, Channel channel)`. -/
def sendPitchBend (intBits : Nat) (self : AbstractMidiInterface) (value : Int) (channel : Nat) :
    AbstractMidiInterface :=
  let bend := toUnsigned intBits (value - MIDI_PITCHBEND_MIN)
  self.send PitchBend (toByte (bend &&& 0x7f)) (toByte ((bend >>> 7) &&& 0x7f)) channel

/-- Conversion of a real value to `int`: the fractional part is discarded. -/
def truncToInt (q : ℚ) : Int :=
  if 0 ≤ q then Rat.floor q else -Rat.floor (-q)

/-- The overload `sendPitchBend(double pitchValue, Channel channel)`, the
`double` arithmetic taken exactly over the rationals. -/
def sendPitchBendDouble (intBits : Nat) (self : AbstractMidiInterface) (pitchValue : ℚ)
    (channel : Nat) : AbstractMidiInterface :=
  let scale : Int := if pitchValue > 0 then MIDI_PITCHBEND_MAX else MIDI_PITCHBEND_MIN
  let value : Int := truncToInt (pitchValue * (scale : ℚ))
  sendPitchBend intBits self value channel

def sendPolyPressure (self : AbstractMidiInterface) (note pressure channel : Nat) :
    AbstractMidiInterface :=
  self.send AfterTouchPoly note pressure channel

/-- The overload `sendAfterTouch(DataByte pressure, Channel channel)`. -/
def sendAfterTouch (self : AbstractMidiInterface) (pressure channel : Nat) :
    AbstractMidiInterface :=
  self.send AfterTouchChannel pressure 0 channel

/-- The overload `sendAfterTouch(DataByte note, DataByte pressure, Channel channel)`. -/
def sendAfterTouchNote (self : AbstractMidiInterface) (note pressure channel : Nat) :
    AbstractMidiInterface :=
  self.send AfterTouchChannel note pressure channel

/-- The array argument is the list of its bytes. -/
def sendSysEx (self : AbstractMidiInterface) (_array : List Nat) (_inLength : Nat) :
    AbstractMidiInterface :=
  self

/-- The overload `sendTimeCodeQuarterFrame(DataByte typeNibble, DataByte valuesNibble)`. -/
def sendTimeCodeQuarterFrame (self : AbstractMidiInterface) (_typeNibble _valuesNibble : Nat) :
    AbstractMidiInterface :=
  self

/-- The overload `sendTimeCodeQuarterFrame(DataByte data)`. -/
def sendTimeCodeQuarterFrameData (self : AbstractMidiInterface) (_data : Nat) :
    AbstractMidiInterface :=
  self

def sendSongPosition (self : AbstractMidiInterface) (_beats : Nat) : AbstractMidiInterface :=
  self

def sendSongSelect (self : AbstractMidiInterface) (_number : Nat) : AbstractMidiInterface :=
  self

def sendTuneRequest (self : AbstractMidiInterface) : AbstractMidiInterface := self

def sendActiveSensing (self : AbstractMidiInterface) : AbstractMidiInterface := self

def sendStart (self : AbstractMidiInterface) : AbstractMidiInterface := self

def sendContinue (self : AbstractMidiInterface) : AbstractMidiInterface := self

def sendStop (self : AbstractMidiInterface) : AbstractMidiInterface := self

def sendReset (self : AbstractMidiInterface) : AbstractMidiInterface := self

def sendClock (self : AbstractMidiInterface) : AbstractMidiInterface := self

def sendTick (self : AbstractMidiInterface) : AbstractMidiInterface := self

/-! ### Receiving -/

def OnReceiveNoteOn (self : AbstractMidiInterface) (fptr : FnPtr) : AbstractMidiInterface :=
  { self with _noteOnCallback := fptr }

def OnReceiveNoteOff (self : AbstractMidiInterface) (fptr : FnPtr) : AbstractMidiInterface :=
  { self with _noteOffCallback := fptr }

def OnReceiveAfterTouchPoly (self : AbstractMidiInterface) (fptr : FnPtr) :
    AbstractMidiInterface :=
  { self with _afterTouchPolyCallback := fptr }

def OnReceiveControlChange (self : AbstractMidiInterface) (fptr : FnPtr) :
    AbstractMidiInterface :=
  { self with _controlChangeCallback := fptr }

def OnReceiveProgramChange (self : AbstractMidiInterface) (fptr : FnPtr) :
    AbstractMidiInterface :=
  { self with _programChangeCallback := fptr }

def OnReceiveAfterTouchChannel (self : AbstractMidiInterface) (fptr : FnPtr) :
    AbstractMidiInterface :=
  { self with _afterTouchChannelCallback := fptr }

def OnReceivePitchBend (self : AbstractMidiInterface) (fptr : FnPtr) : AbstractMidiInterface :=
  { self with _pitchBendCallback := fptr }

def OnReceiveSysEx (self : AbstractMidiInterface) (fptr : FnPtr) : AbstractMidiInterface :=
  { self with _sysExCallback := fptr }

def OnReceiveTimeCodeQuarterFrame (self : AbstractMidiInterface) (fptr : FnPtr) :
    AbstractMidiInterface :=
  { self with _timeCodeQuarterFrameCallback := fptr }

def OnReceiveSongPosition (self : AbstractMidiInterface) (fptr : FnPtr) :
    AbstractMidiInterface :=
  { self with _songPositionCallback := fptr }

def OnReceiveSongSelect (self : AbstractMidiInterface) (fptr : FnPtr) : AbstractMidiInterface :=
  { self with _songSelectCallback := fptr }

def OnReceiveTuneRequest (self : AbstractMidiInterface) (fptr : FnPtr) :
    AbstractMidiInterface :=
  { self with _tuneRequestCallback := fptr }

def OnReceiveClock (self : AbstractMidiInterface) (fptr : FnPtr) : AbstractMidiInterface :=
  { self with _clockCallback := fptr }

def OnReceiveStart (self : AbstractMidiInterface) (fptr : FnPtr) : AbstractMidiInterface :=
  { self with _startCallback := fptr }

def OnReceiveContinue (self : AbstractMidiInterface) (fptr : FnPtr) : AbstractMidiInterface :=
  { self with _continueCallback := fptr }

def OnReceiveStop (self : AbstractMidiInterface) (fptr : FnPtr) : AbstractMidiInterface :=
  { self with _stopCallback := fptr }

def OnReceiveActiveSensing (self : AbstractMidiInterface) (fptr : FnPtr) :
    AbstractMidiInterface :=
  { self with _activeSensingCallback := fptr }

def OnReceiveReset (self : AbstractMidiInterface) (fptr : FnPtr) : AbstractMidiInterface :=
  { self with _resetCallback := fptr }

end AbstractMidiInterface

/-- An object whose slots and fields are pairwise different, and which has
already sent one message: used to evaluate the operations. -/
def sampleInterface : AbstractMidiInterface :=
  { _runningStatus := 0x90
    _thruActivated := true
    _noteOnCallback := some 1
    _noteOffCallback := some 2
    _afterTouchPolyCallback := some 3
    _controlChangeCallback := some 4
    _programChangeCallback := some 5
    _afterTouchChannelCallback := some 6
    _pitchBendCallback := some 7
    _songPositionCallback := some 8
    _songSelectCallback := some 9
    _tuneRequestCallback := some 10
    _timeCodeQuarterFrameCallback := some 11
    _sysExCallback := some 12
    _clockCallback := some 13
    _startCallback := some 14
    _continueCallback := some 15
    _stopCallback := some 16
    _activeSensingCallback := some 17
    _resetCallback := some 18
    sendCalls := [⟨ControlChange, 7, 100, 1⟩] }

/-! ## Dispatch -/

/-- One invocation of a `NoteOn` listener, a function of type
`void (*)(byte channel, byte note, byte velocity)`: the function called and
the three arguments it received. -/
structure NoteOnInvocation where
  fn : Nat
  channel : Nat
  note : Nat
  velocity : Nat
  deriving DecidableEq, Repr

/-- Modelled from the spec: the dispatch entry point for a decoded `NoteOn`
message. `AbstractMidiInterface.h` declares the slot `_noteOnCallback` and its
registration, but the code that invokes the slot is in the concrete transports
and is missing here. Following the dispatch contract, the core looks up the
listener slot of the category and, if it is set, invokes it synchronously with
the fields; if it is unset, the message is silently dropped. The result is the
list of the invocations made. -/
def deliverNoteOn (self : AbstractMidiInterface) (note velocity channel : Nat) :
    List NoteOnInvocation :=
  match self._noteOnCallback with
  | some f => [⟨f, channel, note, velocity⟩]
  | none => []

/-! ## Auxiliary facts on masks -/

theorem land_0f_eq_mod (s : Nat) : s &&& 0x0f = s % 16 :=
  Nat.and_pow_two_sub_one_eq_mod s 4

theorem land_7f_eq_mod (s : Nat) : s &&& 0x7f = s % 128 :=
  Nat.and_pow_two_sub_one_eq_mod s 7

theorem land_f0_of_byte (s : Nat) (h : s < 256) : s &&& 0xf0 = s / 16 * 16 := by
  interval_cases s <;> rfl

/-! ## Status-byte classification -/

/-- C1: every status byte `s` with `0x80 ≤ s ≤ 0xEF` classifies as the
channel-voice category whose wire value is `s & 0xF0`, whatever the low
nibble; for instance `0x93` classifies as `NoteOn`. -/
theorem getTypeFromStatusByte_channelVoice (s : Nat) (hlo : 0x80 ≤ s) (hhi : s ≤ 0xEF) :
    getTypeFromStatusByte s = ⟨s &&& 0xF0⟩ ∧
    (∀ p ∈ [(0x80, NoteOff), (0x90, NoteOn), (0xA0, AfterTouchPoly), (0xB0, ControlChange),
            (0xC0, ProgramChange), (0xD0, AfterTouchChannel), (0xE0, PitchBend)],
        s &&& 0xF0 = p.1 → getTypeFromStatusByte s = p.2) ∧
    getTypeFromStatusByte s ∈ [NoteOff, NoteOn, AfterTouchPoly, ControlChange,
        ProgramChange, AfterTouchChannel, PitchBend] ∧
    (∀ s2, 0x80 ≤ s2 → s2 ≤ 0xEF → s2 &&& 0xF0 = s &&& 0xF0 →
        getTypeFromStatusByte s2 = getTypeFromStatusByte s) ∧
    getTypeFromStatusByte 0x93 = NoteOn := by
  have key : ∀ t, 0x80 ≤ t → t ≤ 0xEF → getTypeFromStatusByte t = ⟨t &&& 0xF0⟩ := by
    intro t h1 h2
    have a : ¬ t < 0x80 := by omega
    have b : t < 0xf0 := by omega
    have c : t ≠ 0xf4 ∧ t ≠ 0xf5 ∧ t ≠ 0xf9 ∧ t ≠ 0xfD := by omega
    simp [getTypeFromStatusByte, a, b, c.1, c.2.1, c.2.2.1, c.2.2.2]
  refine ⟨key s hlo hhi, ?_, ?_, ?_, by decide⟩
  · intro p hp hs
    rw [key s hlo hhi, hs]
    simp only [List.mem_cons, List.mem_singleton, List.not_mem_nil, or_false] at hp
    rcases hp with h | h | h | h | h | h | h <;> subst h <;> rfl
  · rw [key s hlo hhi, land_f0_of_byte s (by omega)]
    have : s / 16 = 8 ∨ s / 16 = 9 ∨ s / 16 = 10 ∨ s / 16 = 11 ∨ s / 16 = 12 ∨
        s / 16 = 13 ∨ s / 16 = 14 := by omega
    rcases this with h | h | h | h | h | h | h <;> rw [h] <;> decide
  · intro s2 h1 h2 he
    rw [key s hlo hhi, key s2 h1 h2, he]

theorem getTypeFromStatusByte_channelVoice_witness :
    getTypeFromStatusByte 0x93 = ⟨0x93 &&& 0xF0⟩ ∧ getTypeFromStatusByte 0x93 = NoteOn :=
  ⟨(getTypeFromStatusByte_channelVoice 0x93 (by decide) (by decide)).1,
   (getTypeFromStatusByte_channelVoice 0x93 (by decide) (by decide)).2.2.2.2⟩

/-- C2: for every byte `s`, channel-voice or not, `getChannelFromStatusByte s`
is `(s & 0x0F) + 1`, a value between 1 and 16, hence neither the omni sentinel
0 nor an off sentinel 17 or more; for instance `0x93` gives channel 4. -/
theorem getChannelFromStatusByte_range :
    (∀ s : Nat, getChannelFromStatusByte s = (s &&& 0x0F) + 1 ∧
      1 ≤ getChannelFromStatusByte s ∧ getChannelFromStatusByte s ≤ 16 ∧
      getChannelFromStatusByte s ≠ MIDI_CHANNEL_OMNI ∧
      ¬ MIDI_CHANNEL_OFF ≤ getChannelFromStatusByte s) ∧
    getChannelFromStatusByte 0x93 = 4 := by
  refine ⟨fun s => ?_, by decide⟩
  have h : getChannelFromStatusByte s = (s &&& 0x0F) + 1 := by
    unfold getChannelFromStatusByte toByte
    rw [land_0f_eq_mod]
    omega
  have hm : s &&& 0x0F = s % 16 := land_0f_eq_mod s
  simp only [MIDI_CHANNEL_OMNI, MIDI_CHANNEL_OFF]
  omega

/-- C3: a byte `s` classifies as `InvalidType` exactly when it is a data byte
(`s < 0x80`) or one of the undefined status values `0xF4`, `0xF5`, `0xF9`,
`0xFD`. -/
theorem getTypeFromStatusByte_invalid_iff (s : Nat) :
    getTypeFromStatusByte s = InvalidType ↔
      (s < 0x80 ∨ s = 0xF4 ∨ s = 0xF5 ∨ s = 0xF9 ∨ s = 0xFD) := by
  constructor
  · intro h
    by_contra hn
    have a : ¬ s < 0x80 := by omega
    have c : s ≠ 0xf4 ∧ s ≠ 0xf5 ∧ s ≠ 0xf9 ∧ s ≠ 0xfD := by omega
    by_cases b : s < 0xf0
    · have hv : s &&& 0xf0 = 0 := by
        have := congrArg MidiType.val h
        simpa [getTypeFromStatusByte, a, b, c.1, c.2.1, c.2.2.1, c.2.2.2, InvalidType] using this
      rw [land_f0_of_byte s (by omega)] at hv
      omega
    · have hv : s = 0 := by
        have := congrArg MidiType.val h
        simpa [getTypeFromStatusByte, a, b, c.1, c.2.1, c.2.2.1, c.2.2.2, InvalidType] using this
      omega
  · intro h
    rcases h with h | h | h | h | h
    · simp [getTypeFromStatusByte, h]
    all_goals subst h; decide

/-- C4: a status byte `s ≥ 0xF0` that is not classified `InvalidType`
classifies as the category whose wire value is `s` itself, which is an
enumerator of `Type` and is not a channel message; for instance `0xF8`
classifies as `Clock`, and `Clock` is not a channel message. -/
theorem getTypeFromStatusByte_system (s : Nat) (hlo : 0xF0 ≤ s) (hhi : s < 256)
    (hv : getTypeFromStatusByte s ≠ InvalidType) :
    getTypeFromStatusByte s = ⟨s⟩ ∧
    getTypeFromStatusByte s ∈ [SysEx, SysExStart, SysExEnd, TimeCodeQuarterFrame, SongPosition,
        SongSelect, TuneRequest, Clock, Tick, Start, Continue, Stop, ActiveSensing, Reset] ∧
    getTypeFromStatusByte s ∈ MidiType.members ∧
    isChannelMessage (getTypeFromStatusByte s) = false ∧
    getTypeFromStatusByte 0xF8 = Clock ∧ isChannelMessage Clock = false := by
  refine ⟨?_, ?_, ?_, ?_, by decide, by decide⟩
  · interval_cases s <;> first | rfl | exact absurd rfl hv
  · interval_cases s <;> first | decide | exact absurd rfl hv
  · interval_cases s <;> decide
  · interval_cases s <;> decide

theorem getTypeFromStatusByte_system_witness :
    getTypeFromStatusByte 0xF8 = ⟨0xF8⟩ ∧ isChannelMessage (getTypeFromStatusByte 0xF8) = false :=
  have h := getTypeFromStatusByte_system 0xF8 (by decide) (by decide) (by decide)
  ⟨h.1, h.2.2.2.1⟩

/-- C5: `isChannelMessage t` is true exactly when `t` is one of `NoteOff`,
`NoteOn`, `AfterTouchPoly`, `ControlChange`, `ProgramChange`,
`AfterTouchChannel`, `PitchBend`; it is false for `InvalidType` and for every
system category. -/
theorem isChannelMessage_iff :
    (∀ t : MidiType, isChannelMessage t = true ↔
      t ∈ [NoteOff, NoteOn, AfterTouchPoly, ControlChange, ProgramChange,
           AfterTouchChannel, PitchBend]) ∧
    (∀ t ∈ [InvalidType, SysEx, SysExStart, SysExEnd, TimeCodeQuarterFrame, SongPosition,
            SongSelect, TuneRequest, Clock, Tick, Start, Continue, Stop, ActiveSensing, Reset],
      isChannelMessage t = false) := by
  refine ⟨fun t => ?_, by decide⟩
  simp only [isChannelMessage, Bool.or_eq_true, beq_iff_eq, List.mem_cons, List.mem_singleton,
    List.not_mem_nil, or_false]
  tauto

/-! ## Sending -/

open AbstractMidiInterface

/-- C6: for every pitch-bend value `v` between `MIDI_PITCHBEND_MIN` and
`MIDI_PITCHBEND_MAX` and every channel `c`, `sendPitchBend(v, c)` makes exactly
one call of `send`, with type `PitchBend`, `data1 = (v + 8192) & 0x7F`,
`data2 = ((v + 8192) >> 7) & 0x7F` and channel `c`, and decoding these two
bytes by `((msb << 7) | lsb) - 8192` gives `v` back. This holds for every
width of `int` of at least 16 bits. -/
theorem sendPitchBend_roundtrip (intBits : Nat) (hbits : 16 ≤ intBits)
    (self : AbstractMidiInterface) (v : Int) (c : Nat)
    (hlo : MIDI_PITCHBEND_MIN ≤ v) (hhi : v ≤ MIDI_PITCHBEND_MAX) :
    let lsb := (v + 8192).toNat &&& 0x7F
    let msb := ((v + 8192).toNat >>> 7) &&& 0x7F
    self.sendPitchBend intBits v c =
        { self with sendCalls := self.sendCalls ++ [⟨PitchBend, lsb, msb, c⟩] } ∧
      (((msb <<< 7) ||| lsb : Nat) : Int) - 8192 = v := by
  intro lsb msb
  simp only [MIDI_PITCHBEND_MIN, MIDI_PITCHBEND_MAX] at hlo hhi
  have hpow : (2 : Int) ^ 14 ≤ (2 : Int) ^ intBits :=
    pow_le_pow_right₀ (by norm_num) (by omega)
  have hbend : toUnsigned intBits (v - MIDI_PITCHBEND_MIN) = (v + 8192).toNat := by
    unfold toUnsigned MIDI_PITCHBEND_MIN
    have e : v - (-8192) = v + 8192 := by ring
    rw [e, Int.emod_eq_of_lt (by omega) (by norm_num at hpow; omega)]
  have hn : (v + 8192).toNat < 16384 := by omega
  have hl : lsb = (v + 8192).toNat % 128 := land_7f_eq_mod _
  have hm : msb = (v + 8192).toNat / 128 := by
    show ((v + 8192).toNat >>> 7) &&& 0x7F = _
    rw [land_7f_eq_mod, Nat.shiftRight_eq_div_pow]
    norm_num
    omega
  constructor
  · unfold sendPitchBend send
    simp only [hbend]
    have b1 : toByte ((v + 8192).toNat &&& 0x7f) = lsb := by
      show toByte lsb = lsb
      unfold toByte; omega
    have b2 : toByte (((v + 8192).toNat >>> 7) &&& 0x7f) = msb := by
      show toByte msb = msb
      unfold toByte; omega
    rw [b1, b2]
  · have hor : (msb <<< 7) ||| lsb = 2 ^ 7 * msb + lsb := by
      rw [Nat.shiftLeft_eq, Nat.mul_comm]
      exact (Nat.mul_add_lt_is_or (by omega) msb).symm
    rw [hor]
    have : 2 ^ 7 * msb + lsb = (v + 8192).toNat := by omega
    rw [this]
    omega

theorem sendPitchBend_roundtrip_witness :
    sampleInterface.sendPitchBend 32 1000 3 =
        { sampleInterface with
          sendCalls := sampleInterface.sendCalls ++ [⟨PitchBend, 104, 71, 3⟩] } ∧
      (((71 <<< 7) ||| 104 : Nat) : Int) - 8192 = 1000 :=
  sendPitchBend_roundtrip 32 (by decide) sampleInterface 1000 3 (by decide) (by decide)

/-- C7 (evaluation of the code): `sendNoteOn(note, velocity, channel)` and
`sendNoteOff(note, velocity, channel)` each make exactly one call of `send`,
but hand it `channel, note, velocity` after the type, so that `send` receives
`data1 = channel`, `data2 = note` and `channel = velocity`. For note 60,
velocity 100 on channel 1 the call is `send(NoteOn, 1, 60, 100)` and not
`send(NoteOn, 60, 100, 1)`. -/
theorem sendNoteOn_sendNoteOff_argument_order :
    (∀ (self : AbstractMidiInterface) (note velocity channel : Nat),
      self.sendNoteOn note velocity channel =
          { self with sendCalls := self.sendCalls ++ [⟨NoteOn, channel, note, velocity⟩] } ∧
        self.sendNoteOff note velocity channel =
          { self with sendCalls := self.sendCalls ++ [⟨NoteOff, channel, note, velocity⟩] }) ∧
    ((construct 0 false).sendNoteOn 60 100 1).sendCalls = [⟨NoteOn, 1, 60, 100⟩] ∧
    ((construct 0 false).sendNoteOn 60 100 1).sendCalls ≠ [⟨NoteOn, 60, 100, 1⟩] ∧
    ((construct 0 false).sendNoteOff 60 100 1).sendCalls = [⟨NoteOff, 1, 60, 100⟩] ∧
    ((construct 0 false).sendNoteOff 60 100 1).sendCalls ≠ [⟨NoteOff, 60, 100, 1⟩] :=
  ⟨fun _ _ _ _ => ⟨rfl, rfl⟩, by decide, by decide, by decide, by decide⟩

/-- C8: `sendControlChange`, `sendProgramChange`, `sendPolyPressure` and the
two-argument `sendAfterTouch` each make exactly one call of `send`, with the
caller's channel in the channel position and the fields in order:
`(ControlChange, number, value, ch)`, `(ProgramChange, number, 0, ch)`,
`(AfterTouchPoly, note, pressure, ch)`, `(AfterTouchChannel, pressure, 0, ch)`;
nothing else of the object changes. -/
theorem send_channelVoice_in_order (self : AbstractMidiInterface) (a b ch : Nat) :
    self.sendControlChange a b ch =
        { self with sendCalls := self.sendCalls ++ [⟨ControlChange, a, b, ch⟩] } ∧
    self.sendProgramChange a ch =
        { self with sendCalls := self.sendCalls ++ [⟨ProgramChange, a, 0, ch⟩] } ∧
    self.sendPolyPressure a b ch =
        { self with sendCalls := self.sendCalls ++ [⟨AfterTouchPoly, a, b, ch⟩] } ∧
    self.sendAfterTouch a ch =
        { self with sendCalls := self.sendCalls ++ [⟨AfterTouchChannel, a, 0, ch⟩] } :=
  ⟨rfl, rfl, rfl, rfl⟩

/-- C9: the system-exclusive, system-common and system-real-time send
operations (`sendSysEx`, both `sendTimeCodeQuarterFrame` overloads,
`sendSongPosition`, `sendSongSelect`, `sendTuneRequest`, `sendActiveSensing`,
`sendStart`, `sendContinue`, `sendStop`, `sendReset`, `sendClock`, `sendTick`)
return the object as it was: no call of `send` is added, and every listener
slot and every other field is unchanged. -/
theorem send_system_noop (self : AbstractMidiInterface) (array : List Nat) (a b : Nat) :
    self.sendSysEx array a = self ∧
    self.sendTimeCodeQuarterFrame a b = self ∧
    self.sendTimeCodeQuarterFrameData a = self ∧
    self.sendSongPosition a = self ∧
    self.sendSongSelect a = self ∧
    self.sendTuneRequest = self ∧
    self.sendActiveSensing = self ∧
    self.sendStart = self ∧
    self.sendContinue = self ∧
    self.sendStop = self ∧
    self.sendReset = self ∧
    self.sendClock = self ∧
    self.sendTick = self ∧
    (self.sendSysEx array a).sendCalls = self.sendCalls ∧
    (sampleInterface.sendTick.sendStart.sendSysEx [0xF0, 0x7E, 0xF7] 3).sendCalls =
      [⟨ControlChange, 7, 100, 1⟩] :=
  ⟨rfl, rfl, rfl, rfl, rfl, rfl, rfl, rfl, rfl, rfl, rfl, rfl, rfl, rfl, by decide⟩

/-! ## Receiving -/

/-- C10: last registration wins. For each of the 18 `OnReceive*` operations,
given with the slot it assigns, and for all listeners `f` and `g` (the null
listener included): after registering `f` the slot holds `f` whatever it held
before; registering `f` and then `g` leaves the slot holding `g` and gives the
same object as registering `g` alone; registering the null listener leaves the
slot unset. -/
theorem OnReceive_last_registration_wins :
    ∀ p ∈ [(OnReceiveNoteOn, _noteOnCallback),
           (OnReceiveNoteOff, _noteOffCallback),
           (OnReceiveAfterTouchPoly, _afterTouchPolyCallback),
           (OnReceiveControlChange, _controlChangeCallback),
           (OnReceiveProgramChange, _programChangeCallback),
           (OnReceiveAfterTouchChannel, _afterTouchChannelCallback),
           (OnReceivePitchBend, _pitchBendCallback),
           (OnReceiveSysEx, _sysExCallback),
           (OnReceiveTimeCodeQuarterFrame, _timeCodeQuarterFrameCallback),
           (OnReceiveSongPosition, _songPositionCallback),
           (OnReceiveSongSelect, _songSelectCallback),
           (OnReceiveTuneRequest, _tuneRequestCallback),
           (OnReceiveClock, _clockCallback),
           (OnReceiveStart, _startCallback),
           (OnReceiveContinue, _continueCallback),
           (OnReceiveStop, _stopCallback),
           (OnReceiveActiveSensing, _activeSensingCallback),
           (OnReceiveReset, _resetCallback)],
      ∀ (self : AbstractMidiInterface) (f g : FnPtr),
        p.2 (p.1 self f) = f ∧
        p.2 (p.1 (p.1 self f) g) = g ∧
        p.1 (p.1 self f) g = p.1 self g ∧
        p.2 (p.1 self none) = none := by
  intro p hp self f g
  simp only [List.mem_cons, List.mem_singleton, List.not_mem_nil, or_false] at hp
  rcases hp with h | h | h | h | h | h | h | h | h | h | h | h | h | h | h | h | h | h <;>
    subst h <;> exact ⟨rfl, rfl, rfl, rfl⟩

theorem OnReceive_last_registration_wins_witness :
    (sampleInterface.OnReceiveNoteOn (some 42))._noteOnCallback = some 42 ∧
    ((sampleInterface.OnReceiveNoteOn (some 42)).OnReceiveNoteOn none)._noteOnCallback = none ∧
    (sampleInterface.OnReceiveNoteOn (some 42)).OnReceiveNoteOn none =
      sampleInterface.OnReceiveNoteOn none ∧
    (sampleInterface.OnReceiveNoteOn none)._noteOnCallback = none :=
  OnReceive_last_registration_wins (OnReceiveNoteOn, _noteOnCallback)
    (List.mem_cons_self _ _) sampleInterface (some 42) none

/-- C11: after a listener `f` is registered with `OnReceiveNoteOn`, delivering
a decoded `NoteOn` message invokes `f` exactly once, with the note, velocity
and channel of the message; after the slot is overwritten with the null
listener, and on an object on which no listener was ever registered, the same
delivery invokes nothing (and, being a total function, raises no error). -/
theorem deliverNoteOn_registered (self : AbstractMidiInterface) (f note velocity channel : Nat) :
    deliverNoteOn (self.OnReceiveNoteOn (some f)) note velocity channel =
        [⟨f, channel, note, velocity⟩] ∧
    deliverNoteOn ((self.OnReceiveNoteOn (some f)).OnReceiveNoteOn none) note velocity channel
        = [] ∧
    (∀ (runningStatus : Int) (thruActivated : Bool),
      deliverNoteOn (construct runningStatus thruActivated) note velocity channel = []) ∧
    deliverNoteOn (sampleInterface.OnReceiveNoteOn (some 42)) 60 100 1 = [⟨42, 1, 60, 100⟩] :=
  ⟨rfl, rfl, fun _ _ => rfl, by decide⟩

/-! ## Enumerators and their wire values -/

/-- C12 (as stated, refuted): `Tick` is an enumerator of `Type` other than
`InvalidType`, and its wire value `0xF9` does not classify as `Tick`: it
classifies as `InvalidType`. -/
theorem getTypeFromStatusByte_Tick_counterexample :
    Tick ∈ MidiType.members ∧ Tick ≠ InvalidType ∧ Tick.val = 0xF9 ∧
    getTypeFromStatusByte Tick.val ≠ Tick ∧ getTypeFromStatusByte 0xF9 = InvalidType := by
  decide

/-- C12 (amended): every enumerator `t` of `Type` other than `InvalidType` and
`Tick` is the classification of its own wire value; in particular `0xF7`
classifies as `SysExEnd`. The wire value `0xF9` of `Tick` is one of the values
the classifier treats as undefined, and classifies as `InvalidType`. -/
theorem getTypeFromStatusByte_member (t : MidiType) (hm : t ∈ MidiType.members)
    (hi : t ≠ InvalidType) (ht : t ≠ Tick) :
    getTypeFromStatusByte t.val = t ∧
    getTypeFromStatusByte 0xF7 = SysExEnd ∧
    getTypeFromStatusByte 0xF9 = InvalidType := by
  refine ⟨?_, by decide, by decide⟩
  simp only [MidiType.members, List.mem_cons, List.mem_singleton, List.not_mem_nil,
    or_false] at hm
  rcases hm with h | h | h | h | h | h | h | h | h | h | h | h | h | h | h | h | h | h | h | h |
    h | h <;> subst h <;> first | rfl | exact absurd rfl hi | exact absurd rfl ht

theorem getTypeFromStatusByte_member_witness :
    getTypeFromStatusByte SysExEnd.val = SysExEnd ∧
    getTypeFromStatusByte 0xF7 = SysExEnd ∧
    getTypeFromStatusByte 0xF9 = InvalidType :=
  getTypeFromStatusByte_member SysExEnd (by decide) (by decide) (by decide)

/-! ## Normalized pitch bend -/

theorem truncToInt_of_nonneg (q : ℚ) (h : 0 ≤ q) : truncToInt q = ⌊q⌋ := by
  unfold truncToInt
  rw [if_pos h]
  rfl

/-- C13 (evaluation of the code): `sendPitchBend(double, Channel)` hands to
`sendPitchBend(int, Channel)` the product of the ratio and the scale with its
fractional part discarded, the scale being `MIDI_PITCHBEND_MAX` for a ratio
above 0 and `MIDI_PITCHBEND_MIN` otherwise. For `0 < r ≤ 1` that value lies
between 0 and 8191 and is 8191 at `r = 1`. For `-1 ≤ r ≤ 0` the product of two
non-positive numbers is non-negative: the value lies between 0 and 8192, it is
`+8192` at `r = -1` (above `MIDI_PITCHBEND_MAX`) and `+4096` at `r = -1/2`,
where the message sent is that of `sendPitchBend(4096, channel)` and not that
of `sendPitchBend(-4096, channel)`. -/
theorem sendPitchBendDouble_value :
    (∀ (intBits : Nat) (self : AbstractMidiInterface) (r : ℚ) (c : Nat),
      self.sendPitchBendDouble intBits r c =
        self.sendPitchBend intBits
          (truncToInt (r * (((if r > 0 then MIDI_PITCHBEND_MAX else MIDI_PITCHBEND_MIN : Int)) : ℚ)))
          c) ∧
    (∀ r : ℚ, 0 < r → r ≤ 1 →
      0 ≤ truncToInt (r * ((MIDI_PITCHBEND_MAX : Int) : ℚ)) ∧
      truncToInt (r * ((MIDI_PITCHBEND_MAX : Int) : ℚ)) ≤ MIDI_PITCHBEND_MAX) ∧
    truncToInt ((1 : ℚ) * ((MIDI_PITCHBEND_MAX : Int) : ℚ)) = 8191 ∧
    (∀ r : ℚ, -1 ≤ r → r ≤ 0 →
      0 ≤ truncToInt (r * ((MIDI_PITCHBEND_MIN : Int) : ℚ)) ∧
      truncToInt (r * ((MIDI_PITCHBEND_MIN : Int) : ℚ)) ≤ 8192) ∧
    truncToInt ((-1 : ℚ) * ((MIDI_PITCHBEND_MIN : Int) : ℚ)) = 8192 ∧
    MIDI_PITCHBEND_MAX < truncToInt ((-1 : ℚ) * ((MIDI_PITCHBEND_MIN : Int) : ℚ)) ∧
    truncToInt ((-1 / 2 : ℚ) * ((MIDI_PITCHBEND_MIN : Int) : ℚ)) = 4096 ∧
    ((construct 0 false).sendPitchBendDouble 32 (-1 / 2) 1).sendCalls =
      [⟨PitchBend, 0, 96, 1⟩] ∧
    ((construct 0 false).sendPitchBend 32 4096 1).sendCalls = [⟨PitchBend, 0, 96, 1⟩] ∧
    ((construct 0 false).sendPitchBend 32 (-4096) 1).sendCalls = [⟨PitchBend, 0, 32, 1⟩] := by
  have hmax : ((MIDI_PITCHBEND_MAX : Int) : ℚ) = 8191 := by norm_num [MIDI_PITCHBEND_MAX]
  have hmin : ((MIDI_PITCHBEND_MIN : Int) : ℚ) = -8192 := by norm_num [MIDI_PITCHBEND_MIN]
  have e1 : truncToInt ((-1 : ℚ) * ((MIDI_PITCHBEND_MIN : Int) : ℚ)) = 8192 := by
    rw [hmin, truncToInt_of_nonneg _ (by norm_num)]
    have : ((-1 : ℚ) * -8192) = ((8192 : Int) : ℚ) := by norm_num
    rw [this, Int.floor_intCast]
  have e2 : truncToInt ((-1 / 2 : ℚ) * ((MIDI_PITCHBEND_MIN : Int) : ℚ)) = 4096 := by
    rw [hmin, truncToInt_of_nonneg _ (by norm_num)]
    have : ((-1 / 2 : ℚ) * -8192) = ((4096 : Int) : ℚ) := by norm_num
    rw [this, Int.floor_intCast]
  have e3 : truncToInt ((1 : ℚ) * ((MIDI_PITCHBEND_MAX : Int) : ℚ)) = 8191 := by
    rw [hmax, truncToInt_of_nonneg _ (by norm_num)]
    have : ((1 : ℚ) * 8191) = ((8191 : Int) : ℚ) := by norm_num
    rw [this, Int.floor_intCast]
  refine ⟨fun _ _ _ _ => rfl, ?_, e3, ?_, e1, ?_, e2, ?_, by decide, by decide⟩
  · intro r h0 h1
    have hq : 0 ≤ r * ((MIDI_PITCHBEND_MAX : Int) : ℚ) := by rw [hmax]; positivity
    rw [truncToInt_of_nonneg _ hq]
    refine ⟨Int.floor_nonneg.mpr hq, ?_⟩
    have hle : r * ((MIDI_PITCHBEND_MAX : Int) : ℚ) ≤ ((8191 : Int) : ℚ) := by
      rw [hmax]; push_cast; nlinarith
    have := Int.floor_le_floor hle
    rw [Int.floor_intCast] at this
    exact this
  · intro r h0 h1
    have hq : 0 ≤ r * ((MIDI_PITCHBEND_MIN : Int) : ℚ) := by rw [hmin]; nlinarith
    rw [truncToInt_of_nonneg _ hq]
    refine ⟨Int.floor_nonneg.mpr hq, ?_⟩
    have hle : r * ((MIDI_PITCHBEND_MIN : Int) : ℚ) ≤ ((8192 : Int) : ℚ) := by
      rw [hmin]; push_cast; nlinarith
    have := Int.floor_le_floor hle
    rw [Int.floor_intCast] at this
    exact this
  · rw [e1]; decide
  · show ((construct 0 false).sendPitchBend 32
        (truncToInt ((-1 / 2 : ℚ) * (((if (-1 / 2 : ℚ) > 0 then MIDI_PITCHBEND_MAX
          else MIDI_PITCHBEND_MIN : Int)) : ℚ))) 1).sendCalls = _
    rw [if_neg (by norm_num), e2]
    decide

/-! ## Pitch bend outside its range -/

theorem toUnsigned_mod (intBits : Nat) (hbits : 14 ≤ intBits) (x : Int) :
    toUnsigned intBits x % 16384 = (x % 16384).toNat := by
  unfold toUnsigned
  have hpos : (0 : Int) < (2 : Int) ^ intBits := by positivity
  have hdvd : (16384 : Int) ∣ (2 : Int) ^ intBits := by
    have : (2 : Int) ^ 14 ∣ (2 : Int) ^ intBits := pow_dvd_pow 2 hbits
    norm_num at this
    exact this
  have h1 : x % (2 : Int) ^ intBits % 16384 = x % 16384 := Int.emod_emod_of_dvd x hdvd
  have h2 : 0 ≤ x % (2 : Int) ^ intBits := Int.emod_nonneg _ (ne_of_gt hpos)
  have h3 : 0 ≤ x % 16384 := Int.emod_nonneg _ (by norm_num)
  omega

theorem sendPitchBend_eq_mod (intBits : Nat) (hbits : 14 ≤ intBits)
    (self : AbstractMidiInterface) (value : Int) (c : Nat) :
    self.sendPitchBend intBits value c =
      { self with
        sendCalls := self.sendCalls ++
          [⟨PitchBend, ((value + 8192) % 16384).toNat % 128,
            ((value + 8192) % 16384).toNat / 128, c⟩] } := by
  have hm := toUnsigned_mod intBits hbits (value + 8192)
  have h3 : 0 ≤ (value + 8192) % 16384 := Int.emod_nonneg _ (by norm_num)
  have h4 : (value + 8192) % 16384 < 16384 := Int.emod_lt_of_pos _ (by norm_num)
  have e : value - MIDI_PITCHBEND_MIN = value + 8192 := by
    unfold MIDI_PITCHBEND_MIN; ring
  unfold sendPitchBend send
  simp only [e]
  have b1 : toByte (toUnsigned intBits (value + 8192) &&& 0x7f) =
      ((value + 8192) % 16384).toNat % 128 := by
    rw [land_7f_eq_mod]; unfold toByte; omega
  have b2 : toByte ((toUnsigned intBits (value + 8192) >>> 7) &&& 0x7f) =
      ((value + 8192) % 16384).toNat / 128 := by
    rw [land_7f_eq_mod, Nat.shiftRight_eq_div_pow]; unfold toByte; norm_num; omega
  rw [b1, b2]

/-- C14 (as stated, refuted): on a 32-bit and on a 16-bit `int`, the value
8192, one above `MIDI_PITCHBEND_MAX`, is not encoded through the clamped
`u = min(max(value + 8192, 0), 16383)`, that is like 8191 as `(0x7F, 0x7F)`:
it is encoded as `(0x00, 0x00)`, like `-8192`. -/
theorem sendPitchBend_clamp_counterexample :
    (min (max ((8192 : Int) + 8192) 0) 16383).toNat = 16383 ∧
    ((construct 0 false).sendPitchBend 32 8192 1).sendCalls ≠
      [⟨PitchBend, 16383 &&& 0x7F, (16383 >>> 7) &&& 0x7F, 1⟩] ∧
    ((construct 0 false).sendPitchBend 32 8192 1).sendCalls ≠
      ((construct 0 false).sendPitchBend 32 8191 1).sendCalls ∧
    ((construct 0 false).sendPitchBend 32 8191 1).sendCalls = [⟨PitchBend, 0x7F, 0x7F, 1⟩] ∧
    ((construct 0 false).sendPitchBend 32 8192 1).sendCalls = [⟨PitchBend, 0x00, 0x00, 1⟩] ∧
    ((construct 0 false).sendPitchBend 16 8192 1).sendCalls = [⟨PitchBend, 0x00, 0x00, 1⟩] := by
  decide

/-- C14 (amended): for every `int` value, in range or not, `sendPitchBend`
makes one call of `send` with `data1 = u & 0x7F` and `data2 = (u >> 7) & 0x7F`
where `u = (value + 8192) mod 16384`: the biased value wraps modulo `2 ^ 14`,
it is not clamped. For a value between `MIDI_PITCHBEND_MIN` and
`MIDI_PITCHBEND_MAX` this `u` is `min(max(value + 8192, 0), 16383)`. -/
theorem sendPitchBend_wraps (intBits : Nat) (hbits : 16 ≤ intBits)
    (self : AbstractMidiInterface) (value : Int) (c : Nat) :
    let u := ((value + 8192) % 16384).toNat
    self.sendPitchBend intBits value c =
        { self with
          sendCalls := self.sendCalls ++ [⟨PitchBend, u &&& 0x7F, (u >>> 7) &&& 0x7F, c⟩] } ∧
      (MIDI_PITCHBEND_MIN ≤ value → value ≤ MIDI_PITCHBEND_MAX →
        u = (min (max (value + 8192) 0) 16383).toNat) := by
  intro u
  have h3 : 0 ≤ (value + 8192) % 16384 := Int.emod_nonneg _ (by norm_num)
  have h4 : (value + 8192) % 16384 < 16384 := Int.emod_lt_of_pos _ (by norm_num)
  have hu : u < 16384 := by
    show ((value + 8192) % 16384).toNat < 16384
    omega
  constructor
  · rw [sendPitchBend_eq_mod intBits (by omega) self value c, land_7f_eq_mod, land_7f_eq_mod,
      Nat.shiftRight_eq_div_pow]
    have : u / 2 ^ 7 % 128 = u / 128 := by norm_num; omega
    rw [this]
  · intro hlo hhi
    simp only [MIDI_PITCHBEND_MIN, MIDI_PITCHBEND_MAX] at hlo hhi
    show ((value + 8192) % 16384).toNat = _
    rw [Int.emod_eq_of_lt (by omega) (by omega)]
    congr 1
    omega

theorem sendPitchBend_wraps_witness :
    sampleInterface.sendPitchBend 32 (-100) 3 =
        { sampleInterface with
          sendCalls := sampleInterface.sendCalls ++
            [⟨PitchBend, 8092 &&& 0x7F, (8092 >>> 7) &&& 0x7F, 3⟩] } ∧
      8092 = (min (max ((-100 : Int) + 8192) 0) 16383).toNat :=
  have h := sendPitchBend_wraps 32 (by decide) sampleInterface (-100) 3
  ⟨h.1, h.2 (by decide) (by decide)⟩

/-- C19: for every `int` value, in range or not, `sendPitchBend(value, channel)`
makes one call of `send` whose type is `PitchBend`, whose channel is the
caller's and whose two data bytes are between 0 and 127; two values with the
same `(value + 8192) mod 16384` give the same call. This holds for every width
of `int` of at least 16 bits. -/
theorem sendPitchBend_data_bytes (intBits : Nat) (hbits : 16 ≤ intBits)
    (self : AbstractMidiInterface) (value : Int) (c : Nat) :
    (∃ d1 d2 : Nat,
      self.sendPitchBend intBits value c =
        { self with sendCalls := self.sendCalls ++ [⟨PitchBend, d1, d2, c⟩] } ∧
      d1 ≤ 127 ∧ d2 ≤ 127) ∧
    (∀ value2 : Int, (value2 + 8192) % 16384 = (value + 8192) % 16384 →
      self.sendPitchBend intBits value2 c = self.sendPitchBend intBits value c) := by
  have h3 : 0 ≤ (value + 8192) % 16384 := Int.emod_nonneg _ (by norm_num)
  have h4 : (value + 8192) % 16384 < 16384 := Int.emod_lt_of_pos _ (by norm_num)
  constructor
  · refine ⟨_, _, sendPitchBend_eq_mod intBits (by omega) self value c, ?_, ?_⟩ <;> omega
  · intro value2 h
    rw [sendPitchBend_eq_mod intBits (by omega) self value2 c,
      sendPitchBend_eq_mod intBits (by omega) self value c, h]

theorem sendPitchBend_data_bytes_witness :
    (∃ d1 d2 : Nat,
      sampleInterface.sendPitchBend 32 20000 3 =
        { sampleInterface with
          sendCalls := sampleInterface.sendCalls ++ [⟨PitchBend, d1, d2, 3⟩] } ∧
      d1 ≤ 127 ∧ d2 ≤ 127) ∧
    (∀ value2 : Int, (value2 + 8192) % 16384 = ((20000 : Int) + 8192) % 16384 →
      sampleInterface.sendPitchBend 32 value2 3 = sampleInterface.sendPitchBend 32 20000 3) :=
  sendPitchBend_data_bytes 32 (by decide) sampleInterface 20000 3

/-! ## 14-bit composites -/

theorem land_shifted_mask_of_lt (a : Nat) (h : a < 128) : a &&& (0x7F <<< 7) = 0 := by
  interval_cases a <;> rfl

/-- C15 (evaluation of the code): `RPN::NullFunction` is `0x3FFF = 16383`.
Each macro, used as a whole expression on a `v` between 0 and `0x3FFF`, has
the value the claim gives, `MIDI_LSB(v) = v & 0x7F` and
`MIDI_MSB(v) = (v >> 7) & 0x7F`, both between 0 and 127 and both `0x7F` at
`NullFunction`, and these two values recombine to `v`. But the replacement
texts have no enclosing parentheses, so the expression
`(MIDI_MSB(v) << 7) | MIDI_LSB(v)` is read as
`(((v)>> 7) & (0x7F << 7)) | ((v) & 0x7F)` and has the value `v & 0x7F`, not
`v`: 127 at `v = 16383` and 0 at `v = 128`. -/
theorem MIDI_MSB_LSB_expression :
    RPN.NullFunction = 0x3FFF ∧ RPN.NullFunction = 16383 ∧
    (MIDI_MSB (.lit RPN.NullFunction)).eval = 0x7F ∧
    (MIDI_LSB (.lit RPN.NullFunction)).eval = 0x7F ∧
    (∀ v : Nat, v ≤ 0x3FFF →
      (MIDI_LSB (.lit v)).eval = v &&& 0x7F ∧
      (MIDI_MSB (.lit v)).eval = (v >>> 7) &&& 0x7F ∧
      (MIDI_LSB (.lit v)).eval ≤ 127 ∧ (MIDI_MSB (.lit v)).eval ≤ 127 ∧
      ((MIDI_MSB (.lit v)).eval <<< 7) ||| (MIDI_LSB (.lit v)).eval = v ∧
      (((CExprText.paren ((MIDI_MSB (.lit v)).binop .shl (.lit 7))).binop .bor
          (MIDI_LSB (.lit v))).eval = v &&& 0x7F)) ∧
    ((CExprText.paren ((MIDI_MSB (.lit 16383)).binop .shl (.lit 7))).binop .bor
        (MIDI_LSB (.lit 16383))).eval = 127 ∧
    ((CExprText.paren ((MIDI_MSB (.lit 16383)).binop .shl (.lit 7))).binop .bor
        (MIDI_LSB (.lit 16383))).eval ≠ 16383 ∧
    ((CExprText.paren ((MIDI_MSB (.lit 128)).binop .shl (.lit 7))).binop .bor
        (MIDI_LSB (.lit 128))).eval = 0 ∧
    ((MIDI_MSB (.lit 128)).eval <<< 7) ||| (MIDI_LSB (.lit 128)).eval = 128 := by
  refine ⟨by decide, by decide, by decide, by decide, ?_, by decide, by decide, by decide,
    by decide⟩
  intro v hv
  have el : (MIDI_LSB (.lit v)).eval = v &&& 0x7F := rfl
  have em : (MIDI_MSB (.lit v)).eval = (v >>> 7) &&& 0x7F := rfl
  have ec : ((CExprText.paren ((MIDI_MSB (.lit v)).binop .shl (.lit 7))).binop .bor
      (MIDI_LSB (.lit v))).eval = ((v >>> 7) &&& (0x7F <<< 7)) ||| (v &&& 0x7F) := rfl
  have hl : v &&& 0x7F = v % 128 := land_7f_eq_mod v
  have hs : v >>> 7 = v / 128 := by
    rw [Nat.shiftRight_eq_div_pow]
  have hm : (v >>> 7) &&& 0x7F = v / 128 := by
    rw [land_7f_eq_mod, hs]
    omega
  refine ⟨el, em, ?_, ?_, ?_, ?_⟩
  · rw [el, hl]; omega
  · rw [em, hm]; omega
  · rw [el, em, hm, hl]
    have hlt : v % 128 < 2 ^ 7 := by omega
    have hor : ((v / 128) <<< 7) ||| (v % 128) = 2 ^ 7 * (v / 128) + v % 128 := by
      rw [Nat.shiftLeft_eq, Nat.mul_comm]
      exact (Nat.mul_add_lt_is_or hlt (v / 128)).symm
    rw [hor]
    omega
  · rw [ec, land_shifted_mask_of_lt (v >>> 7) (by rw [hs]; omega), Nat.zero_or]

/-! ## Registration frame -/

/-- C16: each `OnReceive*` operation, given with the slot it assigns, changes
only that slot: for every object and listener, each of the other 17 listener
slots, `_runningStatus` and `_thruActivated` are as before, and no call of
`send` is made. -/
theorem OnReceive_frame :
    ∀ p ∈ [(OnReceiveNoteOn, _noteOnCallback),
           (OnReceiveNoteOff, _noteOffCallback),
           (OnReceiveAfterTouchPoly, _afterTouchPolyCallback),
           (OnReceiveControlChange, _controlChangeCallback),
           (OnReceiveProgramChange, _programChangeCallback),
           (OnReceiveAfterTouchChannel, _afterTouchChannelCallback),
           (OnReceivePitchBend, _pitchBendCallback),
           (OnReceiveSysEx, _sysExCallback),
           (OnReceiveTimeCodeQuarterFrame, _timeCodeQuarterFrameCallback),
           (OnReceiveSongPosition, _songPositionCallback),
           (OnReceiveSongSelect, _songSelectCallback),
           (OnReceiveTuneRequest, _tuneRequestCallback),
           (OnReceiveClock, _clockCallback),
           (OnReceiveStart, _startCallback),
           (OnReceiveContinue, _continueCallback),
           (OnReceiveStop, _stopCallback),
           (OnReceiveActiveSensing, _activeSensingCallback),
           (OnReceiveReset, _resetCallback)],
      ∀ (self : AbstractMidiInterface) (f : FnPtr),
        (∀ q ∈ [_noteOnCallback, _noteOffCallback, _afterTouchPolyCallback,
                _controlChangeCallback, _programChangeCallback, _afterTouchChannelCallback,
                _pitchBendCallback, _sysExCallback, _timeCodeQuarterFrameCallback,
                _songPositionCallback, _songSelectCallback, _tuneRequestCallback,
                _clockCallback, _startCallback, _continueCallback, _stopCallback,
                _activeSensingCallback, _resetCallback],
          q ≠ p.2 → q (p.1 self f) = q self) ∧
        (p.1 self f)._runningStatus = self._runningStatus ∧
        (p.1 self f)._thruActivated = self._thruActivated ∧
        (p.1 self f).sendCalls = self.sendCalls := by
  intro p hp self f
  simp only [List.mem_cons, List.mem_singleton, List.not_mem_nil, or_false] at hp
  rcases hp with h | h | h | h | h | h | h | h | h | h | h | h | h | h | h | h | h | h <;>
    subst h <;> refine ⟨?_, rfl, rfl, rfl⟩ <;> intro q hq hne <;>
    simp only [List.mem_cons, List.mem_singleton, List.not_mem_nil, or_false] at hq <;>
    rcases hq with h | h | h | h | h | h | h | h | h | h | h | h | h | h | h | h | h | h <;>
    subst h <;> first | rfl | exact absurd rfl hne

theorem OnReceive_frame_witness :
    (sampleInterface.OnReceiveNoteOn (some 42))._noteOffCallback = some 2 ∧
    (sampleInterface.OnReceiveNoteOn (some 42))._runningStatus = 0x90 ∧
    (sampleInterface.OnReceiveNoteOn (some 42))._thruActivated = true ∧
    (sampleInterface.OnReceiveNoteOn (some 42)).sendCalls = [⟨ControlChange, 7, 100, 1⟩] :=
  have h := OnReceive_frame (OnReceiveNoteOn, _noteOnCallback) (List.mem_cons_self _ _)
    sampleInterface (some 42)
  ⟨h.1 _noteOffCallback (List.mem_cons_of_mem _ (List.mem_cons_self _ _))
      (fun e => absurd (congrFun e sampleInterface) (by decide)),
    h.2.1, h.2.2.1, h.2.2.2⟩

/-! ## Channel messages and status bytes -/

/-- C17: for every byte `s`, the classification of `s` is a channel message
exactly when `0x80 ≤ s ≤ 0xEF`. -/
theorem isChannelMessage_getTypeFromStatusByte_iff (s : Nat) :
    isChannelMessage (getTypeFromStatusByte s) = true ↔ (0x80 ≤ s ∧ s ≤ 0xEF) := by
  by_cases hb : s < 256
  · interval_cases s <;> decide
  · have a : ¬ s < 0x80 := by omega
    have b : ¬ s < 0xf0 := by omega
    have c : s ≠ 0xf4 ∧ s ≠ 0xf5 ∧ s ≠ 0xf9 ∧ s ≠ 0xfD := by omega
    have e : getTypeFromStatusByte s = ⟨s⟩ := by
      simp [getTypeFromStatusByte, a, b, c.1, c.2.1, c.2.2.1, c.2.2.2]
    have hv : ∀ t : MidiType, t.val < 256 → (⟨s⟩ : MidiType) ≠ t := by
      intro t ht he
      have := congrArg MidiType.val he
      simp only at this
      omega
    rw [e]
    constructor
    · intro h
      simp only [isChannelMessage, Bool.or_eq_true, beq_iff_eq] at h
      rcases h with (((((h | h) | h) | h) | h) | h) | h <;>
        exact absurd h (hv _ (by decide))
    · intro h
      omega

/-- C18: status-byte decomposition is lossless on channel-voice bytes. For
every `s` with `0x80 ≤ s ≤ 0xEF`, the wire value of the classification of `s`
or-ed with the channel of `s` minus one is `s`; conversely, for every
channel-voice category `t` and channel `c` between 1 and 16, the byte
`t | (c - 1)` classifies as `t` and has channel `c`. -/
theorem statusByte_decomposition (s : Nat) (hlo : 0x80 ≤ s) (hhi : s ≤ 0xEF) :
    (getTypeFromStatusByte s).val ||| (getChannelFromStatusByte s - 1) = s ∧
    (∀ t ∈ [NoteOff, NoteOn, AfterTouchPoly, ControlChange, ProgramChange,
            AfterTouchChannel, PitchBend],
      ∀ c : Nat, 1 ≤ c → c ≤ 16 →
        getTypeFromStatusByte (t.val ||| (c - 1)) = t ∧
        getChannelFromStatusByte (t.val ||| (c - 1)) = c) := by
  constructor
  · interval_cases s <;> decide
  · intro t ht c h1 h16
    simp only [List.mem_cons, List.mem_singleton, List.not_mem_nil, or_false] at ht
    rcases ht with h | h | h | h | h | h | h <;> subst h <;> interval_cases c <;> decide

theorem statusByte_decomposition_witness :
    (getTypeFromStatusByte 0x93).val ||| (getChannelFromStatusByte 0x93 - 1) = 0x93 ∧
    getTypeFromStatusByte (NoteOn.val ||| (4 - 1)) = NoteOn ∧
    getChannelFromStatusByte (NoteOn.val ||| (4 - 1)) = 4 :=
  have h := statusByte_decomposition 0x93 (by decide) (by decide)
  ⟨h.1, h.2 NoteOn (by decide) 4 (by decide) (by decide)⟩

/-! ## Per-note aftertouch -/

/-- C20 (evaluation of the code): the three-argument
`sendAfterTouch(note, pressure, channel)` makes one call of `send`, with type
`AfterTouchChannel` and not `AfterTouchPoly`; for note 60, pressure 100 on
channel 1 the call is `send(AfterTouchChannel, 60, 100, 1)`, which is not the
call `send(AfterTouchPoly, 60, 100, 1)` that `sendPolyPressure(60, 100, 1)`
makes. -/
theorem sendAfterTouchNote_type :
    (∀ (self : AbstractMidiInterface) (note pressure channel : Nat),
      self.sendAfterTouchNote note pressure channel =
          { self with
            sendCalls := self.sendCalls ++ [⟨AfterTouchChannel, note, pressure, channel⟩] } ∧
        self.sendAfterTouchNote note pressure channel ≠
          self.sendPolyPressure note pressure channel) ∧
    ((construct 0 false).sendAfterTouchNote 60 100 1).sendCalls =
      [⟨AfterTouchChannel, 60, 100, 1⟩] ∧
    ((construct 0 false).sendPolyPressure 60 100 1).sendCalls =
      [⟨AfterTouchPoly, 60, 100, 1⟩] ∧
    ((construct 0 false).sendAfterTouchNote 60 100 1).sendCalls ≠
      ((construct 0 false).sendPolyPressure 60 100 1).sendCalls := by
  refine ⟨fun self note pressure channel => ⟨rfl, ?_⟩, by decide, by decide, by decide⟩
  intro h
  have h2 := congrArg AbstractMidiInterface.sendCalls h
  simp [sendAfterTouchNote, sendPolyPressure, send, AfterTouchChannel, AfterTouchPoly] at h2

end Midi
